import Mathlib

/-!
Shallow embedding of `src/sommelier/sommelier-window.cc` (window-state
reconciliation and configure-acknowledgment state machine of the sommelier
proxy).  Pure C helpers become Lean functions; the mutation of `struct
sl_window` / `struct sl_context` becomes explicit state passing; every
outbound protocol call (xcb requests, xdg-shell requests, aura-shell
requests) is recorded in an `SlEffect` list so that theorems can talk about
which messages were sent and in which order.

The `COMMIT_LOOP_FIX` preprocessor symbol is not defined anywhere in the
repository, so the embedding follows the compiled (`#else` / absent) paths:
no mask/states early-out in `sl_process_pending_configure_acks`, and a plain
`wl_surface_commit` at the end of `sl_window_update`.

C `int` arithmetic is modelled by `Int` (no claim exercises 32-bit wrap of
signed intermediates); the `int` → `uint32_t` conversions in
`sl_process_pending_configure_acks` are modelled explicitly with
`Int.emod _ (2 ^ 32)`.  C integer division truncates toward zero, which is
`Int.tdiv`.
-/

namespace Sommelier

/-- XCB_CONFIG_WINDOW_X bit (xproto). -/
def XCB_CONFIG_WINDOW_X : Nat := 1

/-- XCB_CONFIG_WINDOW_Y bit (xproto). -/
def XCB_CONFIG_WINDOW_Y : Nat := 2

/-- XCB_CONFIG_WINDOW_WIDTH bit (xproto). -/
def XCB_CONFIG_WINDOW_WIDTH : Nat := 4

/-- XCB_CONFIG_WINDOW_HEIGHT bit (xproto). -/
def XCB_CONFIG_WINDOW_HEIGHT : Nat := 8

/-- XCB_CONFIG_WINDOW_BORDER_WIDTH bit (xproto). -/
def XCB_CONFIG_WINDOW_BORDER_WIDTH : Nat := 16

/-- ICCCM WM_NORMAL_HINTS flag: user-specified position. -/
def US_POSITION : Nat := 1

/-- ICCCM WM_NORMAL_HINTS flag: program-specified position. -/
def P_POSITION : Nat := 4

/-- ICCCM WM_NORMAL_HINTS flag: program-specified minimum size. -/
def P_MIN_SIZE : Nat := 16

/-- ICCCM WM_NORMAL_HINTS flag: program-specified maximum size. -/
def P_MAX_SIZE : Nat := 32

/-- xdg-shell enum xdg_toplevel_state.maximized. -/
def XDG_TOPLEVEL_STATE_MAXIMIZED : Nat := 1

/-- xdg-shell enum xdg_toplevel_state.fullscreen. -/
def XDG_TOPLEVEL_STATE_FULLSCREEN : Nat := 2

/-- xdg-shell enum xdg_toplevel_state.resizing. -/
def XDG_TOPLEVEL_STATE_RESIZING : Nat := 3

/-- xdg-shell enum xdg_toplevel_state.activated. -/
def XDG_TOPLEVEL_STATE_ACTIVATED : Nat := 4

/-- xdg-shell enum xdg_positioner_anchor.top_left. -/
def XDG_POSITIONER_ANCHOR_TOP_LEFT : Nat := 5

/-- xdg-shell enum xdg_positioner_gravity.bottom_right. -/
def XDG_POSITIONER_GRAVITY_BOTTOM_RIGHT : Nat := 8

/-- aura-shell: first version providing zaura_surface_set_fullscreen_mode. -/
def ZAURA_SURFACE_SET_FULLSCREEN_MODE_SINCE_VERSION : Nat := 5

/-- Modelled from the spec: the declaration of `struct sl_config` lives in
`sommelier.h`, which is not part of `src/`; the spec's data model (§3) says
each configure buffer holds "a state list (≤3 semantic states)", so the
declared capacity of the `states` array is 3. -/
def SL_CONFIG_STATES_CAPACITY : Nat := 3

/-- struct sl_config: one two-phase configure buffer (serial, field mask,
positional geometry values, X11 state atoms and their count).  The C arrays
`values[5]` / `states[3]` are modelled as lists; entries past the positions
actually written by the callbacks are never read by the code. -/
structure SlConfig where
  serial : Nat
  mask : Nat
  values : List Int
  states_length : Nat
  states : List Nat
deriving DecidableEq, Repr

/-- struct sl_output fields used by the centering computation. -/
structure SlOutput where
  virt_x : Int
  virt_y : Int
  width : Int
  height : Int
deriving DecidableEq, Repr

/-- struct sl_host_surface fields read by this translation unit. -/
structure SlHostSurface where
  contents_width : Nat
  contents_height : Nat
  last_event_serial : Nat
  has_own_scale : Bool
  cached_logical_width : Int
  cached_logical_height : Int
  output : Option SlOutput
deriving DecidableEq, Repr

/-- struct sl_window fields read or written by this translation unit.
Nullable compositor-side handles (`xdg_surface`, `xdg_toplevel`,
`xdg_popup`, `aura_surface`) are modelled by presence flags; the effect
trace records the calls made on them. -/
structure SlWindow where
  id : Nat
  frame_id : Nat
  x : Int
  y : Int
  width : Int
  height : Int
  border_width : Int
  depth : Nat
  managed : Bool
  unpaired : Bool
  realized : Bool
  activated : Bool
  allow_resize : Bool
  compositor_fullscreen : Bool
  maximized : Bool
  fullscreen : Bool
  decorated : Bool
  dark_frame : Bool
  size_flags : Nat
  transient_for : Nat
  client_leader : Nat
  host_surface_id : Nat
  name : Option String
  clazz : Option String
  startup_id : Option String
  app_id_property : String
  paired_surface : Option SlHostSurface
  xdg_surface : Bool
  xdg_toplevel : Bool
  xdg_popup : Bool
  aura_surface : Bool
  min_width : Int
  min_height : Int
  max_width : Int
  max_height : Int
  pending_config : SlConfig
  next_config : SlConfig
deriving DecidableEq, Repr

/-- struct sl_context fields read or written by this translation unit.
`registry` models the wayland client object table consulted by
`wl_client_get_object`; `windows` models the `ctx->windows` list of paired
windows; `geometry_depth` models the reply of the blocking
`xcb_get_geometry` round-trip. -/
structure SlContext where
  xwayland : Bool
  application_id : Option String
  vm_id : String
  screen_width_in_pixels : Int
  screen_height_in_pixels : Int
  atom_net_wm_state : Nat
  atom_fullscreen : Nat
  atom_max_vert : Nat
  atom_max_horz : Nat
  atom_focused : Nat
  host_focus_window : Option Nat
  needs_set_input_focus : Bool
  aura_shell : Bool
  aura_shell_version : Nat
  fullscreen_mode : Nat
  frame_color : Nat
  dark_frame_color : Nat
  registry : List (Nat × SlHostSurface)
  windows : List SlWindow
  geometry_depth : Option Nat
deriving DecidableEq, Repr

/-- Outbound protocol messages issued by the translation unit. -/
inductive SlEffect where
  | xcb_configure (target : Nat) (mask : Nat) (values : List Int)
  | xcb_change_property (target : Nat) (atom : Nat) (data : List Nat)
  | configure_notify (target : Nat) (x y w h bw : Int)
  | ack_configure (serial : Nat)
  | surface_commit
  | try_window_scale (w h : Int)
  | set_application_id (s : String)
  | aura_destroy
  | toplevel_destroy
  | popup_destroy
  | xdg_surface_destroy
  | create_xdg_surface
  | set_frame (t : Nat)
  | set_frame_colors (a b : Nat)
  | set_startup_id (s : Option String)
  | set_fullscreen_mode (m : Nat)
  | create_toplevel
  | set_parent_toplevel (parent_id : Nat)
  | set_title (s : String)
  | set_min_size (w h : Int)
  | set_max_size (w h : Int)
  | set_maximized
  | set_fullscreen
  | create_popup (parent_id : Nat) (anchor gravity : Nat) (ax ay aw ah : Int)
  | aura_set_parent (parent_id : Nat) (dx dy : Int)
  | send_close (target : Nat)
deriving DecidableEq, Repr

/-- wl_client_get_object: look an object id up in the client's table;
id 0 always resolves to NULL. -/
def wl_client_get_object (ctx : SlContext) (oid : Nat) : Option SlHostSurface :=
  if oid = 0 then none
  else (ctx.registry.find? (fun p => p.1 == oid)).map (fun p => p.2)

/-- Frame-type enum values of zaura_surface_set_frame. -/
def ZAURA_SURFACE_FRAME_TYPE_NONE : Nat := 0

/-- zaura frame type: shadow only. -/
def ZAURA_SURFACE_FRAME_TYPE_SHADOW : Nat := 2

/-- zaura frame type: normal decorated frame. -/
def ZAURA_SURFACE_FRAME_TYPE_NORMAL : Nat := 1

/-- Geometry-applying half of `sl_configure_window` (source lines 59-97):
when `next_config.mask` is nonzero, forward the masked values to the frame
window, consume them positionally in X, Y, WIDTH, HEIGHT, BORDER_WIDTH
order into the authoritative geometry, force the client window to origin
with the final size, and synthesize a ConfigureNotify if the position
changed. -/
def sl_configure_window_geometry (window : SlWindow) : SlWindow × List SlEffect :=
  if window.next_config.mask ≠ 0 then
    let cfg := window.next_config
    let e0 := SlEffect.xcb_configure window.frame_id cfg.mask cfg.values
    let i0 : Nat := 0
    let x := if cfg.mask &&& XCB_CONFIG_WINDOW_X ≠ 0 then cfg.values.getD i0 0 else window.x
    let i1 := if cfg.mask &&& XCB_CONFIG_WINDOW_X ≠ 0 then i0 + 1 else i0
    let y := if cfg.mask &&& XCB_CONFIG_WINDOW_Y ≠ 0 then cfg.values.getD i1 0 else window.y
    let i2 := if cfg.mask &&& XCB_CONFIG_WINDOW_Y ≠ 0 then i1 + 1 else i1
    let width := if cfg.mask &&& XCB_CONFIG_WINDOW_WIDTH ≠ 0 then cfg.values.getD i2 0
      else window.width
    let i3 := if cfg.mask &&& XCB_CONFIG_WINDOW_WIDTH ≠ 0 then i2 + 1 else i2
    let height := if cfg.mask &&& XCB_CONFIG_WINDOW_HEIGHT ≠ 0 then cfg.values.getD i3 0
      else window.height
    let i4 := if cfg.mask &&& XCB_CONFIG_WINDOW_HEIGHT ≠ 0 then i3 + 1 else i3
    let bw := if cfg.mask &&& XCB_CONFIG_WINDOW_BORDER_WIDTH ≠ 0 then cfg.values.getD i4 0
      else window.border_width
    let w1 := { window with width := width, height := height, border_width := bw }
    let w2 := if x ≠ window.x ∨ y ≠ window.y then { w1 with x := x, y := y } else w1
    (w2,
     [e0, SlEffect.xcb_configure window.id 31 [0, 0, width, height, bw]] ++
       (if x ≠ window.x ∨ y ≠ window.y then
          [SlEffect.configure_notify w2.id w2.x w2.y w2.width w2.height w2.border_width]
        else []))
  else (window, [])

/-- sl_configure_window (source lines 55-110): apply the queued configure's
geometry, push the semantic state atoms for managed windows, then move
`next_config` into `pending_config` and reset `next_config`'s serial, mask
and states_length to 0.  (The entry assertions are captured separately by
`sl_configure_window_asserts`.) -/
def sl_configure_window (ctx : SlContext) (window : SlWindow) : SlWindow × List SlEffect :=
  let p := sl_configure_window_geometry window
  let stateEffs := if window.managed then
      [SlEffect.xcb_change_property window.id ctx.atom_net_wm_state
        (window.next_config.states.take window.next_config.states_length)]
    else []
  ({ p.1 with
      pending_config := window.next_config
      next_config := { window.next_config with serial := 0, mask := 0, states_length := 0 } },
   p.2 ++ stateEffs)

/-- The two `assert` statements inside `sl_configure_window` (source lines
57 and 80): `assert(!window->pending_config.serial)` at entry, and
`assert(window->managed)` inside the `next_config.mask` branch.  Returns
true iff neither assertion fires. -/
def sl_configure_window_asserts (window : SlWindow) : Bool :=
  decide (window.pending_config.serial = 0) &&
    (decide (window.next_config.mask = 0) || window.managed)

/-- The anti-tearing size guard of `sl_process_pending_configure_acks`
(source lines 146-155): for a managed window with a (non-NULL) host
surface, compare `width + 2*border_width` / `height + 2*border_width`
(converted to uint32_t) against the surface's last-reported contents size;
true means the sizes disagree and the ack must be withheld. -/
def sl_size_mismatch (window : SlWindow) (host_surface : Option SlHostSurface) : Bool :=
  match host_surface with
  | some hs =>
    window.managed &&
      (((window.width + window.border_width * 2).emod (2 ^ 32)).toNat != hs.contents_width ||
       ((window.height + window.border_width * 2).emod (2 ^ 32)).toNat != hs.contents_height)
  | none => false

/-- sl_process_pending_configure_acks (source lines 132-167): no-op when no
serial is pending; withhold the ack while the size guard reports a
mismatch; otherwise ack the pending serial (only if the xdg_surface handle
exists), clear `pending_config.serial`, and if a newer configure is queued
in `next_config`, immediately apply it via `sl_configure_window`.  Returns
(ack-cycle-completed, new window state, emitted messages). -/
def sl_process_pending_configure_acks (ctx : SlContext) (window : SlWindow)
    (host_surface : Option SlHostSurface) : Bool × SlWindow × List SlEffect :=
  if window.pending_config.serial = 0 then (false, window, [])
  else if sl_size_mismatch window host_surface then (false, window, [])
  else
    let ackEffs := if window.xdg_surface then
        [SlEffect.ack_configure window.pending_config.serial]
      else []
    let w1 := { window with pending_config := { window.pending_config with serial := 0 } }
    if w1.next_config.serial ≠ 0 then
      let p := sl_configure_window ctx w1
      (true, p.1, ackEffs ++ p.2)
    else (true, w1, ackEffs)

/-- sl_commit (source lines 169-174): run the ack machinery and, when it
reports completion and a host surface exists, commit the surface. -/
def sl_commit (ctx : SlContext) (window : SlWindow) (host_surface : Option SlHostSurface) :
    SlWindow × List SlEffect :=
  let r := sl_process_pending_configure_acks ctx window host_surface
  if r.1 then
    match host_surface with
    | some _ => (r.2.1, r.2.2 ++ [SlEffect.surface_commit])
    | none => (r.2.1, r.2.2)
  else (r.2.1, r.2.2)

/-- sl_internal_xdg_surface_configure (source lines 189-210): store the new
serial into `next_config.serial`; when no ack is owed, resolve the host
surface and immediately run `sl_configure_window` followed by `sl_commit`. -/
def sl_internal_xdg_surface_configure (ctx : SlContext) (window : SlWindow) (serial : Nat) :
    SlWindow × List SlEffect :=
  let w1 := { window with next_config := { window.next_config with serial := serial } }
  if w1.pending_config.serial = 0 then
    let host_surface := wl_client_get_object ctx window.host_surface_id
    let p := sl_configure_window ctx w1
    let q := sl_commit ctx p.1 host_surface
    (q.1, p.2 ++ q.2)
  else (w1, [])

/-- The centering/size computation of `sl_internal_xdg_toplevel_configure`
(source lines 231-276) for nonzero proposed dimensions: build the mask and
positional value list of `next_config`.  `width_in_pixels` /
`height_in_pixels` are the device-pixel dimensions produced by
`sl_transform_host_to_guest`.  X/Y are included only when the legacy side
gave no explicit position hint; they center the window within the target
output (offset by the output origin) or within the whole screen. -/
def sl_toplevel_configure_geometry (ctx : SlContext) (window : SlWindow)
    (width_in_pixels height_in_pixels : Int) : Nat × List Int :=
  let baseMask := XCB_CONFIG_WINDOW_WIDTH ||| XCB_CONFIG_WINDOW_HEIGHT |||
    XCB_CONFIG_WINDOW_BORDER_WIDTH
  if window.size_flags &&& (US_POSITION ||| P_POSITION) = 0 then
    let vxy :=
      match window.paired_surface with
      | some ps =>
        match ps.output with
        | some o =>
          [o.virt_x + Int.tdiv (o.width - width_in_pixels) 2,
           o.virt_y + Int.tdiv (o.height - height_in_pixels) 2]
        | none =>
          [Int.tdiv ctx.screen_width_in_pixels 2 - Int.tdiv width_in_pixels 2,
           Int.tdiv ctx.screen_height_in_pixels 2 - Int.tdiv height_in_pixels 2]
      | none =>
        [Int.tdiv ctx.screen_width_in_pixels 2 - Int.tdiv width_in_pixels 2,
         Int.tdiv ctx.screen_height_in_pixels 2 - Int.tdiv height_in_pixels 2]
    (baseMask ||| XCB_CONFIG_WINDOW_X ||| XCB_CONFIG_WINDOW_Y,
     vxy ++ [width_in_pixels, height_in_pixels, 0])
  else (baseMask, [width_in_pixels, height_in_pixels, 0])

/-- The state loop of `sl_internal_xdg_toplevel_configure` (source lines
278-301): walk the proposed state set, accumulating (allow_resize,
compositor_fullscreen, activated, state atoms written in order). -/
def sl_toplevel_states_fold (ctx : SlContext) (states : List Nat) :
    Bool × Bool × Bool × List Nat :=
  states.foldl
    (fun acc st =>
      let ar0 := acc.1
      let cf0 := acc.2.1
      let act0 := acc.2.2.1
      let ws0 := acc.2.2.2
      let ar1 := if st = XDG_TOPLEVEL_STATE_FULLSCREEN then false else ar0
      let cf1 := if st = XDG_TOPLEVEL_STATE_FULLSCREEN then true else cf0
      let ws1 := if st = XDG_TOPLEVEL_STATE_FULLSCREEN then ws0 ++ [ctx.atom_fullscreen] else ws0
      let ar2 := if st = XDG_TOPLEVEL_STATE_MAXIMIZED then false else ar1
      let ws2 := if st = XDG_TOPLEVEL_STATE_MAXIMIZED then
          ws1 ++ [ctx.atom_max_vert, ctx.atom_max_horz]
        else ws1
      let act1 := if st = XDG_TOPLEVEL_STATE_ACTIVATED then true else act0
      let ws3 := if st = XDG_TOPLEVEL_STATE_ACTIVATED then ws2 ++ [ctx.atom_focused] else ws2
      let ar3 := if st = XDG_TOPLEVEL_STATE_RESIZING then false else ar2
      (ar3, cf1, act1, ws3))
    (true, false, false, [])

/-- sl_internal_xdg_toplevel_configure (source lines 215-312): no-op for
unmanaged windows.  For a nonzero proposed size, optionally request a
rescale, convert the logical size to pixels via `host_to_guest` (the
external `sl_transform_host_to_guest` collaborator), and fill
`next_config`'s mask and values (centering when no position hint).
Independently, recompute allow_resize / compositor_fullscreen / the
semantic state atoms, update the process-wide focus window on activation
changes, and store the written state count in `next_config.states_length`. -/
def sl_internal_xdg_toplevel_configure (host_to_guest : Int → Int → Int × Int)
    (ctx : SlContext) (window : SlWindow) (width height : Int) (states : List Nat) :
    SlContext × SlWindow × List SlEffect :=
  if !window.managed then (ctx, window, [])
  else
    let geomStep :=
      if width ≠ 0 ∧ height ≠ 0 then
        let scaleEffs :=
          match window.paired_surface with
          | some ps =>
            if ps.has_own_scale &&
                (width != ps.cached_logical_width || height != ps.cached_logical_height) then
              [SlEffect.try_window_scale window.width window.height]
            else []
          | none => []
        let wh := host_to_guest width height
        let mv := sl_toplevel_configure_geometry ctx window wh.1 wh.2
        ({ window with next_config := { window.next_config with mask := mv.1, values := mv.2 } },
         scaleEffs)
      else (window, [])
    let w1 := geomStep.1
    let f := sl_toplevel_states_fold ctx states
    let allow_resize := f.1
    let compositor_fullscreen := f.2.1
    let activated := f.2.2.1
    let written := f.2.2.2
    let w2 := { w1 with allow_resize := allow_resize,
                        compositor_fullscreen := compositor_fullscreen }
    let ctx2 :=
      if activated ≠ w2.activated ∧
          activated ≠ decide (ctx.host_focus_window = some window.id) then
        { ctx with
            host_focus_window := if activated then some window.id else none
            needs_set_input_focus := true }
      else ctx
    -- `window->activated = activated` runs only under the guard
    -- `activated != window->activated`, where it is a no-op anyway, so the
    -- assignment is unconditional here.
    let w3 := { w2 with activated := activated }
    let w4 := { w3 with next_config := { w3.next_config with
        states := written ++ w3.next_config.states.drop written.length
        states_length := written.length } }
    (ctx2, w4, geomStep.2)

/-- sl_internal_xdg_toplevel_close (source lines 314-329): send the legacy
client a WM_DELETE_WINDOW client message; destroy nothing. -/
def sl_internal_xdg_toplevel_close (window : SlWindow) : SlWindow × List SlEffect :=
  (window, [SlEffect.send_close window.id])

/-- sl_update_application_id (source lines 333-365): no-op without an aura
surface; a process-wide fixed application id is pushed verbatim; otherwise
(skipping unmanaged windows on the xwayland side) derive the id from, in
priority order, the per-window identity property, the class name, the
client leader, or the window's own id, each through the VM-scoped format. -/
def sl_update_application_id (ctx : SlContext) (window : SlWindow) : List SlEffect :=
  if !window.aura_surface then []
  else
    match ctx.application_id with
    | some app => [SlEffect.set_application_id app]
    | none =>
      if !ctx.xwayland || window.managed then
        let s :=
          if window.app_id_property ≠ "" then
            "org.chromium.guest_os." ++ ctx.vm_id ++ ".xprop." ++ window.app_id_property
          else
            match window.clazz with
            | some c => "org.chromium.guest_os." ++ ctx.vm_id ++ ".wmclass." ++ c
            | none =>
              if window.client_leader ≠ 0 then
                "org.chromium.guest_os." ++ ctx.vm_id ++ ".wmclientleader." ++
                  toString window.client_leader
              else
                "org.chromium.guest_os." ++ ctx.vm_id ++ ".xid." ++ toString window.id
        [SlEffect.set_application_id s]
      else []

/-- The host resource resolution at the top of `sl_window_update` (source
lines 374-375): only a nonzero `host_surface_id` is looked up. -/
def sl_host_resource (ctx : SlContext) (window : SlWindow) : Option SlHostSurface :=
  if window.host_surface_id ≠ 0 then wl_client_get_object ctx window.host_surface_id else none

/-- The pairing transition of `sl_window_update` (source lines 374-386):
move a newly paired window into `ctx->windows` (clearing `unpaired`), or a
window whose surface id went away back into the unpaired list (setting
`unpaired` and clearing the cached paired-surface pointer).  List
membership is modelled through `ctx.windows`, keyed by window id. -/
def sl_window_update_pairing (ctx : SlContext) (window : SlWindow)
    (host_resource : Option SlHostSurface) : SlContext × SlWindow :=
  if window.host_surface_id ≠ 0 then
    if host_resource.isSome && window.unpaired then
      let w1 := { window with unpaired := false }
      ({ ctx with windows := w1 :: ctx.windows }, w1)
    else (ctx, window)
  else
    if !window.unpaired then
      ({ ctx with windows := ctx.windows.filter (fun s => s.id ≠ window.id) },
       { window with unpaired := true, paired_surface := none })
    else (ctx, window)

/-- The terminal teardown branch of `sl_window_update` (source lines
388-407): without a host resource, destroy every compositor-side handle
and clear `realized`. -/
def sl_window_update_teardown (ctx : SlContext) (window : SlWindow) :
    SlContext × SlWindow × List SlEffect :=
  let effs :=
    (if window.aura_surface then [SlEffect.aura_destroy] else []) ++
    (if window.xdg_toplevel then [SlEffect.toplevel_destroy] else []) ++
    (if window.xdg_popup then [SlEffect.popup_destroy] else []) ++
    (if window.xdg_surface then [SlEffect.xdg_surface_destroy] else [])
  (ctx,
   { window with aura_surface := false, xdg_toplevel := false, xdg_popup := false,
                 xdg_surface := false, realized := false },
   effs)

/-- The fallback parent scan of `sl_window_update` (source lines 442-472):
over all realized paired windows with a live host resource, pick the one
with the highest `last_event_serial` (later list entries win ties),
skipping the window itself (compared by `host_surface_id`). -/
def sl_fallback_parent (ctx : SlContext) (window : SlWindow) : Option SlWindow :=
  (ctx.windows.foldl
    (fun acc sibling =>
      if !sibling.realized then acc
      else
        match wl_client_get_object ctx sibling.host_surface_id with
        | none => acc
        | some shs =>
          if acc.2 > shs.last_event_serial then acc
          else if sibling.host_surface_id = window.host_surface_id then acc
          else (some sibling, shs.last_event_serial))
    ((none : Option SlWindow), (0 : Nat))).1

/-- Parent resolution of `sl_window_update` (source lines 423-472): for a
managed window with a transient_for hint, take the first sibling in
`ctx->windows` with that id, provided it already has a top-level role;
when the window is unmanaged, or the hinted parent was not found, fall
back to `sl_fallback_parent`. -/
def sl_resolved_parent (ctx : SlContext) (window : SlWindow) : Option SlWindow :=
  let parent :=
    if window.managed && (window.transient_for != 0) then
      match ctx.windows.find? (fun s => s.id == window.transient_for) with
      | some sibling => if sibling.xdg_toplevel then some sibling else none
      | none => none
    else none
  if (!window.managed) || (parent.isNone && (window.transient_for != 0)) then
    sl_fallback_parent ctx window
  else parent

/-- The aura-shell decoration block of `sl_window_update` (source lines
490-516): lazily create the aura surface, set frame type and colors, push
the startup id, run the identity resolver, and push the fullscreen-mode
hint when the extension version allows. -/
def sl_window_update_aura (ctx : SlContext) (window : SlWindow) : SlWindow × List SlEffect :=
  if ctx.aura_shell then
    let w1 := { window with aura_surface := true }
    let frame_type :=
      if w1.decorated then ZAURA_SURFACE_FRAME_TYPE_NORMAL
      else if w1.depth = 32 then ZAURA_SURFACE_FRAME_TYPE_NONE
      else ZAURA_SURFACE_FRAME_TYPE_SHADOW
    let frame_color := if w1.dark_frame then ctx.dark_frame_color else ctx.frame_color
    let fsEffs :=
      if ctx.aura_shell_version ≥ ZAURA_SURFACE_SET_FULLSCREEN_MODE_SINCE_VERSION then
        [SlEffect.set_fullscreen_mode ctx.fullscreen_mode]
      else []
    (w1,
     [SlEffect.set_frame frame_type, SlEffect.set_frame_colors frame_color frame_color,
      SlEffect.set_startup_id w1.startup_id] ++
       sl_update_application_id ctx w1 ++ fsEffs)
  else (window, [])

/-- Role assignment of `sl_window_update` (source lines 518-572): xwayland
contexts and parentless windows get (or keep) a top-level role, with
parent/title/size-hint/maximized/fullscreen pushes; otherwise a popup role
is created once, relative to the parent, via a one-shot positioner
anchored top-left with bottom-right gravity and a 1x1 anchor rectangle at
the transformed parent-relative offset. -/
def sl_window_update_role (guest_to_host : Int → Int → Int × Int) (ctx : SlContext)
    (window : SlWindow) (parent : Option SlWindow) : SlWindow × List SlEffect :=
  if ctx.xwayland || parent.isNone then
    let createEffs := if !window.xdg_toplevel then [SlEffect.create_toplevel] else []
    let w1 := { window with xdg_toplevel := true }
    let parentEffs :=
      match parent with
      | some p => [SlEffect.set_parent_toplevel p.id]
      | none => []
    let titleEffs :=
      match w1.name with
      | some n => [SlEffect.set_title n]
      | none => []
    let minEffs :=
      if w1.size_flags &&& P_MIN_SIZE ≠ 0 then
        let m := guest_to_host w1.min_width w1.min_height
        [SlEffect.set_min_size m.1 m.2]
      else []
    let maxEffs :=
      if w1.size_flags &&& P_MAX_SIZE ≠ 0 then
        let m := guest_to_host w1.max_width w1.max_height
        [SlEffect.set_max_size m.1 m.2]
      else []
    let maxdEffs := if w1.maximized then [SlEffect.set_maximized] else []
    let fsEffs := if w1.fullscreen then [SlEffect.set_fullscreen] else []
    (w1, createEffs ++ parentEffs ++ titleEffs ++ minEffs ++ maxEffs ++ maxdEffs ++ fsEffs)
  else if !window.xdg_popup then
    match parent with
    | some p =>
      let d := guest_to_host (window.x - p.x) (window.y - p.y)
      ({ window with xdg_popup := true },
       [SlEffect.create_popup p.id XDG_POSITIONER_ANCHOR_TOP_LEFT
          XDG_POSITIONER_GRAVITY_BOTTOM_RIGHT d.1 d.2 1 1])
    | none => (window, [])
  else (window, [])

/-- The paired branch of `sl_window_update` (source lines 409-592): bind
the paired surface and request a rescale, resolve the parent, run the
blocking depth query once, lazily create the xdg_surface, run the aura
block, assign the role, push the aura parent offset for position-hinted
children, commit the surface, and mark the window realized when the
surface reports nonzero contents. -/
def sl_window_update_paired (guest_to_host : Int → Int → Int × Int) (ctx : SlContext)
    (window : SlWindow) (host_surface : SlHostSurface) : SlContext × SlWindow × List SlEffect :=
  let w2 := { window with paired_surface :=
      if !window.unpaired then some host_surface else window.paired_surface }
  let bindEffs :=
    if !window.unpaired then [SlEffect.try_window_scale window.width window.height]
    else ([] : List SlEffect)
  let parent := sl_resolved_parent ctx w2
  let w3 := { w2 with depth :=
      if w2.depth = 0 then
        (match ctx.geometry_depth with
         | some d => d
         | none => w2.depth)
      else w2.depth }
  -- after the lazy-creation block the handle always exists
  let surfEffs := if !w3.xdg_surface then [SlEffect.create_xdg_surface]
    else ([] : List SlEffect)
  let w4 := { w3 with xdg_surface := true }
  let auraStep := sl_window_update_aura ctx w4
  let roleStep := sl_window_update_role guest_to_host ctx auraStep.1 parent
  let w6 := roleStep.1
  let posEffs :=
    if (w6.size_flags &&& (US_POSITION ||| P_POSITION) != 0) && parent.isSome && ctx.aura_shell
    then
      match parent with
      | some p =>
        let d := guest_to_host (w6.x - p.x) (w6.y - p.y)
        [SlEffect.aura_set_parent p.id d.1 d.2]
      | none => []
    else []
  let w7 := { w6 with realized :=
      if host_surface.contents_width ≠ 0 ∧ host_surface.contents_height ≠ 0 then true
      else w6.realized }
  (ctx, w7,
   bindEffs ++ surfEffs ++ auraStep.2 ++ roleStep.2 ++ posEffs ++ [SlEffect.surface_commit])

/-- sl_window_update (source lines 367-593): the reconciliation engine.
Resolve the host resource, run the pairing transition, then either the
terminal teardown branch (no resource) or the paired branch. -/
def sl_window_update (guest_to_host : Int → Int → Int × Int) (ctx : SlContext)
    (window : SlWindow) : SlContext × SlWindow × List SlEffect :=
  let host_resource := sl_host_resource ctx window
  let pr := sl_window_update_pairing ctx window host_resource
  match host_resource with
  | none => sl_window_update_teardown pr.1 pr.2
  | some host_surface => sl_window_update_paired guest_to_host pr.1 pr.2 host_surface

/-- Extract the serial of an acknowledge-configure message, if any. -/
def isAckSerial : SlEffect → Option Nat
  | SlEffect.ack_configure s => some s
  | _ => none

/-- The serials acknowledged in a message trace, in emission order. -/
def ackedSerials (effs : List SlEffect) : List Nat :=
  effs.filterMap isAckSerial

/-- Events driving one window's configure/ack state machine: a shell-surface
configure callback carrying a serial, an update of the paired surface's
reported contents size (the client attached a buffer of that size), or an
`sl_commit` pass (as run at the end of every reconciliation). -/
inductive WEvent where
  | surfaceConfigure (serial : Nat)
  | setContents (w h : Nat)
  | commit
deriving DecidableEq, Repr

/-- One step of the configure/ack state machine. -/
def ackStep (ctx : SlContext) (window : SlWindow) (e : WEvent) :
    SlContext × SlWindow × List SlEffect :=
  match e with
  | WEvent.surfaceConfigure serial =>
    let p := sl_internal_xdg_surface_configure ctx window serial
    (ctx, p.1, p.2)
  | WEvent.setContents cw ch =>
    let reg := ctx.registry.map (fun p =>
      if p.1 = window.host_surface_id then
        (p.1, { p.2 with contents_width := cw, contents_height := ch })
      else p)
    ({ ctx with registry := reg }, window, [])
  | WEvent.commit =>
    let hs := wl_client_get_object ctx window.host_surface_id
    let p := sl_commit ctx window hs
    (ctx, p.1, p.2)

/-- Run a trace of events, concatenating the emitted messages. -/
def ackRun (ctx : SlContext) (window : SlWindow) :
    List WEvent → SlContext × SlWindow × List SlEffect
  | [] => (ctx, window, [])
  | e :: es =>
    let p := ackStep ctx window e
    let q := ackRun p.1 p.2.1 es
    (q.1, q.2.1, p.2.2 ++ q.2.2)

/-- The configure serials a trace delivers, in arrival order. -/
def configuredSerials (tr : List WEvent) : List Nat :=
  tr.filterMap (fun e =>
    match e with
    | WEvent.surfaceConfigure s => some s
    | _ => none)

/-- The configure serials currently owed by a window: the pending one (if
nonzero) followed by the queued one (if nonzero). -/
def inFlight (window : SlWindow) : List Nat :=
  (if window.pending_config.serial ≠ 0 then [window.pending_config.serial] else []) ++
    (if window.next_config.serial ≠ 0 then [window.next_config.serial] else [])

/-- An empty configure buffer, for concrete test states. -/
def testConfig : SlConfig :=
  { serial := 0, mask := 0, values := [], states_length := 0, states := [] }

/-- A concrete paired surface reporting contents 104 x 104. -/
def testSurface : SlHostSurface :=
  { contents_width := 104, contents_height := 104, last_event_serial := 1,
    has_own_scale := false, cached_logical_width := 0, cached_logical_height := 0,
    output := none }

/-- A concrete managed window, 100x100 with border 2 (so its outer size is
104 x 104), paired with surface object 1. -/
def testWindow : SlWindow :=
  { id := 10, frame_id := 11, x := 0, y := 0, width := 100, height := 100, border_width := 2,
    depth := 24, managed := true, unpaired := false, realized := false, activated := false,
    allow_resize := true, compositor_fullscreen := false, maximized := false,
    fullscreen := false, decorated := true, dark_frame := false, size_flags := 0,
    transient_for := 0, client_leader := 0, host_surface_id := 1, name := none, clazz := none,
    startup_id := none, app_id_property := "", paired_surface := none, xdg_surface := true,
    xdg_toplevel := false, xdg_popup := false, aura_surface := false, min_width := 0,
    min_height := 0, max_width := 0, max_height := 0, pending_config := testConfig,
    next_config := testConfig }

/-- A concrete context: not xwayland, no fixed application id, a 4x4 pixel
screen (chosen to exercise the centering parity case), surface object 1
registered. -/
def testContext : SlContext :=
  { xwayland := false, application_id := none, vm_id := "termina",
    screen_width_in_pixels := 4, screen_height_in_pixels := 4, atom_net_wm_state := 40,
    atom_fullscreen := 41, atom_max_vert := 42, atom_max_horz := 43, atom_focused := 44,
    host_focus_window := none, needs_set_input_focus := false, aura_shell := false,
    aura_shell_version := 0, fullscreen_mode := 0, frame_color := 0, dark_frame_color := 0,
    registry := [(1, testSurface)], windows := [], geometry_depth := none }

/-- The identity coordinate transform (scale factor 1), standing in for the
external `sl_transform_*` collaborators in concrete evaluations. -/
def idTransform : Int → Int → Int × Int := fun a b => (a, b)

/-- Concrete window with an unacknowledged pending serial 5. -/
def c2Window : SlWindow :=
  { testWindow with pending_config := { testConfig with serial := 5 } }

/-- Concrete unmanaged window with a queued width-only configure. -/
def c9Window : SlWindow :=
  { testWindow with
    managed := false
    next_config := { testConfig with mask := 4, values := [50] } }

/-- Concrete window owing an ack for serial 5 but holding no xdg_surface. -/
def c10Window : SlWindow :=
  { testWindow with
    xdg_surface := false
    pending_config := { testConfig with serial := 5 } }

/-- Concrete window with an aura surface and an explicit identity
property. -/
def c8Window : SlWindow :=
  { testWindow with aura_surface := true, app_id_property := "steam" }

/-- Concrete output: 100 x 80 at virtual origin (7, 9). -/
def c6Output : SlOutput := { virt_x := 7, virt_y := 9, width := 100, height := 80 }

/-- Concrete surface attached to `c6Output`. -/
def c6Surface : SlHostSurface := { testSurface with output := some c6Output }

/-- Concrete window paired with a surface on `c6Output`. -/
def c6Window : SlWindow := { testWindow with paired_surface := some c6Surface }

/-- Concrete realized window whose host surface id has been cleared. -/
def c4Window : SlWindow :=
  { testWindow with
    realized := true
    host_surface_id := 0
    unpaired := true }

/-- Concrete realized sibling holding a top-level role, paired with
surface object 2. -/
def c5Sibling : SlWindow :=
  { testWindow with
    id := 20
    host_surface_id := 2
    realized := true
    xdg_toplevel := true }

/-- Concrete context (not xwayland) in which `c5Sibling` is paired and
realized. -/
def c5Context : SlContext :=
  { testContext with
    windows := [c5Sibling]
    registry := [(1, testSurface), (2, testSurface)] }

/-- Concrete unmanaged window in `c5Context`. -/
def c5Window : SlWindow := { testWindow with managed := false }

/-! Helper lemmas about the configure engine. -/

theorem ackedSerials_append (a b : List SlEffect) :
    ackedSerials (a ++ b) = ackedSerials a ++ ackedSerials b := by
  simp [ackedSerials]

theorem ackedSerials_geometry (w : SlWindow) :
    ackedSerials (sl_configure_window_geometry w).2 = [] := by
  unfold sl_configure_window_geometry
  split
  · dsimp only
    rw [ackedSerials_append, apply_ite ackedSerials]
    simp [ackedSerials, isAckSerial, List.filterMap_cons]
  · simp [ackedSerials]

theorem ackedSerials_configure_window (ctx : SlContext) (w : SlWindow) :
    ackedSerials (sl_configure_window ctx w).2 = [] := by
  show ackedSerials ((sl_configure_window_geometry w).2 ++ _) = []
  rw [ackedSerials_append, ackedSerials_geometry]
  split <;> simp [ackedSerials, isAckSerial]

theorem configure_window_pending (ctx : SlContext) (w : SlWindow) :
    (sl_configure_window ctx w).1.pending_config = w.next_config := rfl

theorem configure_window_next (ctx : SlContext) (w : SlWindow) :
    (sl_configure_window ctx w).1.next_config =
      { w.next_config with serial := 0, mask := 0, states_length := 0 } := rfl

theorem inFlight_configure_window (ctx : SlContext) (w : SlWindow) :
    inFlight (sl_configure_window ctx w).1 =
      if w.next_config.serial ≠ 0 then [w.next_config.serial] else [] := by
  simp [inFlight, configure_window_pending, configure_window_next]

theorem ack_step_process (ctx : SlContext) (w : SlWindow) (hs : Option SlHostSurface) :
    List.Sublist
      (ackedSerials (sl_process_pending_configure_acks ctx w hs).2.2 ++
        inFlight (sl_process_pending_configure_acks ctx w hs).2.1)
      (inFlight w) := by
  unfold sl_process_pending_configure_acks
  by_cases h0 : w.pending_config.serial = 0
  · simp [h0, ackedSerials]
  by_cases hm : sl_size_mismatch w hs = true
  · simp [h0, hm, ackedSerials]
  rw [if_neg h0, if_neg hm]
  dsimp only
  have hflight : inFlight w =
      w.pending_config.serial ::
        (if w.next_config.serial ≠ 0 then [w.next_config.serial] else []) := by
    simp [inFlight, h0]
  by_cases hn : w.next_config.serial ≠ 0
  · rw [if_pos hn]
    dsimp only
    rw [ackedSerials_append, ackedSerials_configure_window, List.append_nil,
      inFlight_configure_window]
    simp only [show ({ w with pending_config := { w.pending_config with serial := 0 }} :
      SlWindow).next_config = w.next_config from rfl]
    rw [if_pos hn, hflight, if_pos hn]
    by_cases hx : w.xdg_surface = true
    · simp [hx, ackedSerials, isAckSerial]
    · simp only [Bool.not_eq_true] at hx
      simp [hx, ackedSerials]
  · rw [if_neg hn]
    dsimp only
    rw [hflight, if_neg hn]
    have hi : inFlight { w with pending_config := { w.pending_config with serial := 0 } } =
        (if w.next_config.serial ≠ 0 then [w.next_config.serial] else []) := by
      simp [inFlight]
    rw [hi, if_neg hn]
    by_cases hx : w.xdg_surface = true
    · simp [hx, ackedSerials, isAckSerial]
    · simp only [Bool.not_eq_true] at hx
      simp [hx, ackedSerials]

theorem ack_step_commit (ctx : SlContext) (w : SlWindow) (hs : Option SlHostSurface) :
    List.Sublist
      (ackedSerials (sl_commit ctx w hs).2 ++ inFlight (sl_commit ctx w hs).1)
      (inFlight w) := by
  unfold sl_commit
  dsimp only
  cases hs with
  | none =>
    split
    · exact ack_step_process ctx w none
    · exact ack_step_process ctx w none
  | some s0 =>
    split
    · rw [ackedSerials_append]
      have h1 : ackedSerials [SlEffect.surface_commit] = [] := rfl
      rw [h1, List.append_nil]
      exact ack_step_process ctx w (some s0)
    · exact ack_step_process ctx w (some s0)

theorem ack_step_surface_configure (ctx : SlContext) (w : SlWindow) (s : Nat) :
    List.Sublist
      (ackedSerials (sl_internal_xdg_surface_configure ctx w s).2 ++
        inFlight (sl_internal_xdg_surface_configure ctx w s).1)
      (inFlight w ++ [s]) := by
  unfold sl_internal_xdg_surface_configure
  by_cases h0 : ({ w with next_config := { w.next_config with serial := s } } :
      SlWindow).pending_config.serial = 0
  · rw [if_pos h0]
    dsimp only
    rw [ackedSerials_append, ackedSerials_configure_window, List.nil_append]
    have step := ack_step_commit ctx
      (sl_configure_window ctx { w with next_config := { w.next_config with serial := s } }).1
      (wl_client_get_object ctx w.host_surface_id)
    have hcw : inFlight (sl_configure_window ctx
        { w with next_config := { w.next_config with serial := s } }).1 =
        if s ≠ 0 then [s] else [] := by
      rw [inFlight_configure_window]
    rw [hcw] at step
    refine step.trans ?_
    split
    · exact List.sublist_append_right _ _
    · exact List.nil_sublist _
  · rw [if_neg h0]
    dsimp only
    rw [ackedSerials]
    simp only [List.filterMap_nil, List.nil_append]
    have hw : inFlight { w with next_config := { w.next_config with serial := s } } =
        (if w.pending_config.serial ≠ 0 then [w.pending_config.serial] else []) ++
          (if s ≠ 0 then [s] else []) := by
      simp [inFlight]
    rw [hw, inFlight, List.append_assoc]
    refine List.Sublist.append_left ?_ _
    split
    · exact List.sublist_append_right _ _
    · exact List.nil_sublist _

/-- The configure serial delivered by one event, if any. -/
def eventSerials (e : WEvent) : List Nat :=
  match e with
  | WEvent.surfaceConfigure s => [s]
  | _ => []

theorem configuredSerials_cons (e : WEvent) (tr : List WEvent) :
    configuredSerials (e :: tr) = eventSerials e ++ configuredSerials tr := by
  cases e <;> simp [configuredSerials, eventSerials]

theorem ack_step_event (ctx : SlContext) (w : SlWindow) (e : WEvent) :
    List.Sublist
      (ackedSerials (ackStep ctx w e).2.2 ++ inFlight (ackStep ctx w e).2.1)
      (inFlight w ++ eventSerials e) := by
  cases e with
  | surfaceConfigure s => exact ack_step_surface_configure ctx w s
  | setContents cw ch =>
    simp only [ackStep, eventSerials, List.append_nil]
    simp only [ackedSerials, List.filterMap_nil, List.nil_append]
    exact List.Sublist.refl (inFlight w)
  | commit =>
    simp only [ackStep, eventSerials, List.append_nil]
    exact ack_step_commit ctx w (wl_client_get_object ctx w.host_surface_id)

theorem ack_run_sublist (tr : List WEvent) (ctx : SlContext) (w : SlWindow) :
    List.Sublist
      (ackedSerials (ackRun ctx w tr).2.2 ++ inFlight (ackRun ctx w tr).2.1)
      (inFlight w ++ configuredSerials tr) := by
  induction tr generalizing ctx w with
  | nil =>
    simp only [ackRun, ackedSerials, configuredSerials, List.filterMap_nil, List.nil_append,
      List.append_nil]
    exact List.Sublist.refl (inFlight w)
  | cons e es ih =>
    show List.Sublist
      (ackedSerials ((ackStep ctx w e).2.2 ++
          (ackRun (ackStep ctx w e).1 (ackStep ctx w e).2.1 es).2.2) ++
        inFlight (ackRun (ackStep ctx w e).1 (ackStep ctx w e).2.1 es).2.1) _
    rw [ackedSerials_append, List.append_assoc, configuredSerials_cons,
      show inFlight w ++ (eventSerials e ++ configuredSerials es) =
        (inFlight w ++ eventSerials e) ++ configuredSerials es
        from (List.append_assoc _ _ _).symm]
    have step1 : List.Sublist
        (ackedSerials (ackStep ctx w e).2.2 ++
          (ackedSerials (ackRun (ackStep ctx w e).1 (ackStep ctx w e).2.1 es).2.2 ++
            inFlight (ackRun (ackStep ctx w e).1 (ackStep ctx w e).2.1 es).2.1))
        ((ackedSerials (ackStep ctx w e).2.2 ++ inFlight (ackStep ctx w e).2.1) ++
          configuredSerials es) := by
      rw [List.append_assoc]
      exact List.Sublist.append_left (ih (ackStep ctx w e).1 (ackStep ctx w e).2.1) _
    exact step1.trans
      (List.Sublist.append_right (ack_step_event ctx w e) (configuredSerials es))

theorem process_acks_completes (ctx : SlContext) (w : SlWindow) (hs : Option SlHostSurface)
    (h0 : ¬ w.pending_config.serial = 0) (hm : sl_size_mismatch w hs = false) :
    (sl_process_pending_configure_acks ctx w hs).1 = true := by
  unfold sl_process_pending_configure_acks
  rw [if_neg h0, if_neg (by simp [hm])]
  dsimp only
  split <;> rfl

theorem process_acks_new_pending (ctx : SlContext) (w : SlWindow) (hs : Option SlHostSurface)
    (h0 : ¬ w.pending_config.serial = 0) (hm : sl_size_mismatch w hs = false) :
    (sl_process_pending_configure_acks ctx w hs).2.1.pending_config.serial =
      w.next_config.serial := by
  unfold sl_process_pending_configure_acks
  rw [if_neg h0, if_neg (by simp [hm])]
  dsimp only
  split
  · rfl
  · next h =>
    simp only [ne_eq, not_not] at h
    exact h.symm

/-- C1: for every window, `sl_process_pending_configure_acks` is a no-op
returning false when `pending_config.serial = 0`; when the window is
managed and a paired surface exists, it returns false without emitting any
message whenever `width + 2*border_width` or `height + 2*border_width`
(converted to uint32) differs from the surface's last-reported contents
size; an ack cycle completes only when the serial is nonzero and the size
guard passes (i.e. the sizes match, or the window is unmanaged, or no
surface is paired), and it consumes the pending serial (the new pending
serial is the queued `next_config.serial`). -/
theorem C1_process_pending_acks (ctx : SlContext) (w : SlWindow) (hs : Option SlHostSurface) :
    (w.pending_config.serial = 0 →
      sl_process_pending_configure_acks ctx w hs = (false, w, [])) ∧
    (w.managed = true → ∀ s, hs = some s →
      ((((w.width + w.border_width * 2).emod (2 ^ 32)).toNat ≠ s.contents_width ∨
        ((w.height + w.border_width * 2).emod (2 ^ 32)).toNat ≠ s.contents_height) →
      sl_process_pending_configure_acks ctx w hs = (false, w, []))) ∧
    ((sl_process_pending_configure_acks ctx w hs).1 = true →
      w.pending_config.serial ≠ 0 ∧ sl_size_mismatch w hs = false ∧
      (sl_process_pending_configure_acks ctx w hs).2.1.pending_config.serial =
        w.next_config.serial) ∧
    ((sl_process_pending_configure_acks ctx w hs).1 = false →
      sl_process_pending_configure_acks ctx w hs = (false, w, [])) := by
  refine ⟨?_, ?_, ?_, ?_⟩
  · intro h0
    simp [sl_process_pending_configure_acks, h0]
  · intro hman s hseq hdiff
    subst hseq
    have hm : sl_size_mismatch w (some s) = true := by
      simp only [sl_size_mismatch, hman, Bool.true_and, Bool.or_eq_true, bne_iff_ne, ne_eq]
      exact hdiff
    by_cases h0 : w.pending_config.serial = 0
    · simp [sl_process_pending_configure_acks, h0]
    · simp [sl_process_pending_configure_acks, h0, hm]
  · intro htrue
    by_cases h0 : w.pending_config.serial = 0
    · rw [show sl_process_pending_configure_acks ctx w hs = (false, w, []) by
        simp [sl_process_pending_configure_acks, h0]] at htrue
      exact absurd htrue (by simp)
    by_cases hm : sl_size_mismatch w hs = true
    · rw [show sl_process_pending_configure_acks ctx w hs = (false, w, []) by
        simp [sl_process_pending_configure_acks, h0, hm]] at htrue
      exact absurd htrue (by simp)
    refine ⟨h0, by simpa using hm, ?_⟩
    exact process_acks_new_pending ctx w hs h0 (by simpa using hm)
  · intro hfalse
    by_cases h0 : w.pending_config.serial = 0
    · simp [sl_process_pending_configure_acks, h0]
    by_cases hm : sl_size_mismatch w hs = true
    · simp [sl_process_pending_configure_acks, h0, hm]
    · rw [process_acks_completes ctx w hs h0 (by simpa using hm)] at hfalse
      exact absurd hfalse (by simp)

/-- C1 witness: on a concrete window with no pending serial the function is
a no-op returning false. -/
theorem C1_witness :
    testWindow.pending_config.serial = 0 ∧
    sl_process_pending_configure_acks testContext testWindow none = (false, testWindow, []) :=
  ⟨rfl, (C1_process_pending_acks testContext testWindow none).1 rfl⟩

/-- C2: a shell-surface configure that arrives while an ack is owed only
stores its serial into `next_config` and changes nothing else (pending
stays untouched, nothing is emitted); and whenever `sl_configure_window`
runs it moves `next_config` wholesale into `pending_config` and resets
`next_config` to serial 0, mask 0, states_length 0 — so after it at most
the pending buffer carries a live serial. -/
theorem C2_configure_queue (ctx : SlContext) (w : SlWindow) (serial : Nat) :
    (w.pending_config.serial ≠ 0 →
      sl_internal_xdg_surface_configure ctx w serial =
        ({ w with next_config := { w.next_config with serial := serial } }, [])) ∧
    ((sl_configure_window ctx w).1.pending_config = w.next_config ∧
     (sl_configure_window ctx w).1.next_config.serial = 0 ∧
     (sl_configure_window ctx w).1.next_config.mask = 0 ∧
     (sl_configure_window ctx w).1.next_config.states_length = 0) := by
  constructor
  · intro h0
    unfold sl_internal_xdg_surface_configure
    rw [if_neg h0]
  · exact ⟨rfl, rfl, rfl, rfl⟩

/-- C2 witness: a concrete window with pending serial 5 receiving serial 7
queues 7 without touching the pending buffer. -/
theorem C2_witness :
    c2Window.pending_config.serial ≠ 0 ∧
    sl_internal_xdg_surface_configure testContext c2Window 7 =
      ({ c2Window with next_config := { c2Window.next_config with serial := 7 } }, []) :=
  ⟨by decide, (C2_configure_queue testContext c2Window 7).1 (by decide)⟩

/-- C3: when an ack cycle completes with a queued serial, the engine
immediately applies the queued configure via `sl_configure_window` (on the
state with the pending serial cleared); each
`sl_process_pending_configure_acks` call acknowledges at most one serial;
and over any event trace started with no serial in flight, the sequence of
acknowledged serials is an order-preserving subsequence of the arriving
configure serials — strict FIFO, one generation per ack cycle. -/
theorem C3_fifo_chain (ctx : SlContext) (w : SlWindow) (hs : Option SlHostSurface)
    (tr : List WEvent) :
    (w.pending_config.serial ≠ 0 → sl_size_mismatch w hs = false →
      w.next_config.serial ≠ 0 →
      (sl_process_pending_configure_acks ctx w hs).1 = true ∧
      (sl_process_pending_configure_acks ctx w hs).2.1 =
        (sl_configure_window ctx
          { w with pending_config := { w.pending_config with serial := 0 } }).1) ∧
    (ackedSerials (sl_process_pending_configure_acks ctx w hs).2.2).length ≤ 1 ∧
    (inFlight w = [] →
      List.Sublist (ackedSerials (ackRun ctx w tr).2.2) (configuredSerials tr)) := by
  refine ⟨?_, ?_, ?_⟩
  · intro h0 hm hn
    refine ⟨process_acks_completes ctx w hs h0 hm, ?_⟩
    unfold sl_process_pending_configure_acks
    rw [if_neg h0, if_neg (by simp [hm])]
    dsimp only
    split
    · rfl
    · next h => exact absurd hn (by simpa using h)
  · by_cases h0 : w.pending_config.serial = 0
    · simp [sl_process_pending_configure_acks, h0, ackedSerials]
    by_cases hm : sl_size_mismatch w hs = true
    · simp [sl_process_pending_configure_acks, h0, hm, ackedSerials]
    unfold sl_process_pending_configure_acks
    rw [if_neg h0, if_neg hm]
    dsimp only
    split
    · rw [ackedSerials_append, ackedSerials_configure_window, List.append_nil]
      split <;> simp [ackedSerials, isAckSerial]
    · split <;> simp [ackedSerials, isAckSerial]
  · intro hempty
    have h := ack_run_sublist tr ctx w
    rw [hempty, List.nil_append] at h
    exact (List.sublist_append_left _ _).trans h

/-- C3 witness: a concrete two-event trace (configure serial 5, then a
commit) starting with nothing in flight acknowledges a subsequence of
[5]. -/
theorem C3_witness :
    inFlight testWindow = [] ∧
    List.Sublist
      (ackedSerials (ackRun testContext testWindow
        [WEvent.surfaceConfigure 5, WEvent.commit]).2.2)
      (configuredSerials [WEvent.surfaceConfigure 5, WEvent.commit]) :=
  ⟨by decide,
   (C3_fifo_chain testContext testWindow none
     [WEvent.surfaceConfigure 5, WEvent.commit]).2.2 (by decide)⟩

/-- C9: `sl_configure_window`'s assertions fail exactly when a serial is
still pending or when the geometry branch is entered (`next_config.mask`
nonzero) on an unmanaged window; in particular, for every unmanaged window
with a queued geometry configure the `assert(window->managed)` fires even
when the documented precondition `pending_config.serial = 0` holds. -/
theorem C9_configure_window_assert (w : SlWindow) :
    (sl_configure_window_asserts w = false ↔
      w.pending_config.serial ≠ 0 ∨ (w.next_config.mask ≠ 0 ∧ w.managed = false)) ∧
    (w.pending_config.serial = 0 → w.managed = false → w.next_config.mask ≠ 0 →
      sl_configure_window_asserts w = false) := by
  have hiff : sl_configure_window_asserts w = false ↔
      w.pending_config.serial ≠ 0 ∨ (w.next_config.mask ≠ 0 ∧ w.managed = false) := by
    cases hman : w.managed <;>
      (simp [sl_configure_window_asserts, hman]; try tauto)
  exact ⟨hiff, fun _ h2 h3 => hiff.mpr (Or.inr ⟨h3, h2⟩)⟩

/-- C9 witness: a concrete unmanaged window with a queued width-only
configure and no pending serial trips the assertion. -/
theorem C9_witness :
    (c9Window.pending_config.serial = 0 ∧ c9Window.managed = false ∧
      c9Window.next_config.mask ≠ 0) ∧
    sl_configure_window_asserts c9Window = false :=
  ⟨⟨by decide, by decide, by decide⟩,
   (C9_configure_window_assert c9Window).2 (by decide) (by decide) (by decide)⟩

/-- C10: when the size guard passes but the window has no xdg_surface
handle, `sl_process_pending_configure_acks` still clears the pending
serial and returns true while emitting no acknowledge-configure message,
and `sl_commit` then emits a surface commit as if an ack had been sent. -/
theorem C10_ack_without_surface (ctx : SlContext) (w : SlWindow) (s : SlHostSurface)
    (h1 : w.pending_config.serial ≠ 0)
    (h2 : sl_size_mismatch w (some s) = false)
    (h3 : w.xdg_surface = false)
    (h4 : w.next_config.serial = 0) :
    sl_process_pending_configure_acks ctx w (some s) =
      (true, { w with pending_config := { w.pending_config with serial := 0 } }, []) ∧
    sl_commit ctx w (some s) =
      ({ w with pending_config := { w.pending_config with serial := 0 } },
       [SlEffect.surface_commit]) := by
  have hp : sl_process_pending_configure_acks ctx w (some s) =
      (true, { w with pending_config := { w.pending_config with serial := 0 } }, []) := by
    unfold sl_process_pending_configure_acks
    rw [if_neg h1, if_neg (by simp [h2])]
    dsimp only
    rw [if_neg (by simpa using h4), h3]
    simp
  refine ⟨hp, ?_⟩
  unfold sl_commit
  rw [hp]
  rfl

/-- C10 witness: concrete window with pending serial 5, matching sizes, no
xdg_surface handle — the serial is dropped silently and the commit is
issued anyway. -/
theorem C10_witness :
    (c10Window.pending_config.serial ≠ 0 ∧
      sl_size_mismatch c10Window (some testSurface) = false ∧
      c10Window.xdg_surface = false ∧ c10Window.next_config.serial = 0) ∧
    sl_commit testContext c10Window (some testSurface) =
      ({ c10Window with pending_config := { c10Window.pending_config with serial := 0 } },
       [SlEffect.surface_commit]) :=
  ⟨⟨by decide, by decide, by decide, by decide⟩,
   (C10_ack_without_surface testContext c10Window testSurface (by decide) (by decide)
     (by decide) (by decide)).2⟩

/-- C8: `sl_update_application_id` returns without effect when the window
has no aura surface; a configured process-wide id is pushed verbatim; for
windows that are managed or not on the xwayland side, the derived id uses,
in strict priority order, the per-window identity property, the class
name, the nonzero client leader, or the window's own id, each through the
fixed VM-scoped template; unmanaged xwayland windows get nothing. -/
theorem C8_application_id (ctx : SlContext) (w : SlWindow) :
    (w.aura_surface = false → sl_update_application_id ctx w = []) ∧
    (∀ app, ctx.application_id = some app → w.aura_surface = true →
      sl_update_application_id ctx w = [SlEffect.set_application_id app]) ∧
    (w.aura_surface = true → ctx.application_id = none →
      (ctx.xwayland = false ∨ w.managed = true) →
      ((w.app_id_property ≠ "" →
        sl_update_application_id ctx w = [SlEffect.set_application_id
          ("org.chromium.guest_os." ++ ctx.vm_id ++ ".xprop." ++ w.app_id_property)]) ∧
       (∀ c, w.app_id_property = "" → w.clazz = some c →
        sl_update_application_id ctx w = [SlEffect.set_application_id
          ("org.chromium.guest_os." ++ ctx.vm_id ++ ".wmclass." ++ c)]) ∧
       (w.app_id_property = "" → w.clazz = none → w.client_leader ≠ 0 →
        sl_update_application_id ctx w = [SlEffect.set_application_id
          ("org.chromium.guest_os." ++ ctx.vm_id ++ ".wmclientleader." ++
            toString w.client_leader)]) ∧
       (w.app_id_property = "" → w.clazz = none → w.client_leader = 0 →
        sl_update_application_id ctx w = [SlEffect.set_application_id
          ("org.chromium.guest_os." ++ ctx.vm_id ++ ".xid." ++ toString w.id)]))) ∧
    (w.aura_surface = true → ctx.application_id = none → ctx.xwayland = true →
      w.managed = false → sl_update_application_id ctx w = []) := by
  refine ⟨?_, ?_, ?_, ?_⟩
  · intro h
    simp [sl_update_application_id, h]
  · intro app happ haura
    simp [sl_update_application_id, haura, happ]
  · intro haura happ hcase
    have hcond : (!ctx.xwayland || w.managed) = true := by
      rcases hcase with h | h <;> simp [h]
    refine ⟨?_, ?_, ?_, ?_⟩
    · intro hprop
      simp [sl_update_application_id, haura, happ, hcond, hprop]
    · intro c hprop hclazz
      simp [sl_update_application_id, haura, happ, hcond, hprop, hclazz]
    · intro hprop hclazz hl
      simp [sl_update_application_id, haura, happ, hcond, hprop, hclazz, hl]
    · intro hprop hclazz hl
      simp [sl_update_application_id, haura, happ, hcond, hprop, hclazz, hl]
  · intro haura happ hxw hman
    simp [sl_update_application_id, haura, happ, hxw, hman]

/-- C8 witness: a window with identity property "steam" gets the xprop
template even though its class is unset. -/
theorem C8_witness :
    (c8Window.aura_surface = true ∧ testContext.application_id = none ∧
      (testContext.xwayland = false ∨ c8Window.managed = true) ∧
      c8Window.app_id_property ≠ "") ∧
    sl_update_application_id testContext c8Window =
      [SlEffect.set_application_id
        ("org.chromium.guest_os." ++ testContext.vm_id ++ ".xprop." ++
          c8Window.app_id_property)] :=
  ⟨⟨rfl, rfl, Or.inl rfl, by decide⟩,
   ((C8_application_id testContext c8Window).2.2.1 rfl rfl (Or.inl rfl)).1 (by decide)⟩

/-- C6 (amended): with no position hint, the x/y stored by the toplevel
configure callback equal the output origin plus (output size - pixel
size)/2 when an output is known; with no output they equal
screen/2 - size/2 (which differs from (screen - size)/2 by one when the
screen dimension is even and the pixel size odd); and for managed windows
with a nonzero proposed size the callback stores exactly this computed
mask and value list in `next_config`. -/
theorem C6_centering (ctx : SlContext) (w : SlWindow) (wp hp : Int)
    (hflags : w.size_flags &&& (US_POSITION ||| P_POSITION) = 0) :
    (∀ ps o, w.paired_surface = some ps → ps.output = some o →
      (sl_toplevel_configure_geometry ctx w wp hp).2 =
        [o.virt_x + Int.tdiv (o.width - wp) 2, o.virt_y + Int.tdiv (o.height - hp) 2,
         wp, hp, 0]) ∧
    ((w.paired_surface = none ∨ ∃ ps, w.paired_surface = some ps ∧ ps.output = none) →
      (sl_toplevel_configure_geometry ctx w wp hp).2 =
        [Int.tdiv ctx.screen_width_in_pixels 2 - Int.tdiv wp 2,
         Int.tdiv ctx.screen_height_in_pixels 2 - Int.tdiv hp 2, wp, hp, 0]) ∧
    (w.managed = true → ∀ h2g width height states, width ≠ 0 → height ≠ 0 →
      (sl_internal_xdg_toplevel_configure h2g ctx w width height
        states).2.1.next_config.values =
        (sl_toplevel_configure_geometry ctx w (h2g width height).1 (h2g width height).2).2 ∧
      (sl_internal_xdg_toplevel_configure h2g ctx w width height
        states).2.1.next_config.mask =
        (sl_toplevel_configure_geometry ctx w (h2g width height).1 (h2g width height).2).1) := by
  refine ⟨?_, ?_, ?_⟩
  · intro ps o hps ho
    unfold sl_toplevel_configure_geometry
    rw [if_pos hflags, hps]
    dsimp only
    rw [ho]
    rfl
  · intro hcase
    unfold sl_toplevel_configure_geometry
    rw [if_pos hflags]
    rcases hcase with h | ⟨ps, hps, ho⟩
    · rw [h]
      rfl
    · rw [hps]
      dsimp only
      rw [ho]
      rfl
  · intro hman h2g width height states hw hh
    unfold sl_internal_xdg_toplevel_configure
    rw [if_neg (by simp [hman]), if_pos (show width ≠ 0 ∧ height ≠ 0 from ⟨hw, hh⟩)]
    exact ⟨rfl, rfl⟩

/-- C6 counterexample: on the 4-pixel-wide test screen with no output and
proposed width 3 under the identity transform, the callback stores x = 1,
whereas (container - size)/2 = (4 - 3)/2 = 0. -/
theorem C6_counterexample :
    (sl_internal_xdg_toplevel_configure idTransform testContext testWindow 3 3
      []).2.1.next_config.values.getD 0 0 = 1 ∧
    Int.tdiv (testContext.screen_width_in_pixels - 3) 2 = 0 ∧ (1 : Int) ≠ 0 := by
  refine ⟨?_, by decide, by decide⟩
  rfl

/-- C6 witness: on an output 100 wide at origin 7 with proposed pixel width
4, the stored x is 7 + (100-4)/2 = 55 — exactly the claimed formula. -/
theorem C6_witness :
    (c6Window.size_flags &&& (US_POSITION ||| P_POSITION) = 0) ∧
    (sl_toplevel_configure_geometry testContext c6Window 4 4).2 =
      [7 + Int.tdiv (100 - 4) 2, 9 + Int.tdiv (80 - 4) 2, 4, 4, 0] :=
  ⟨by decide,
   (C6_centering testContext c6Window 4 4 (by decide)).1 c6Surface c6Output rfl rfl⟩

/-- C7: at the proposed state set [fullscreen, maximized, activated] the
toplevel configure callback writes 4 state atoms and stores
states_length = 4 into `next_config`, exceeding the buffer's declared
3-slot state capacity — the claimed bound of 3 is violated. -/
theorem C7_states_overflow :
    (sl_internal_xdg_toplevel_configure idTransform testContext testWindow 0 0
      [XDG_TOPLEVEL_STATE_FULLSCREEN, XDG_TOPLEVEL_STATE_MAXIMIZED,
       XDG_TOPLEVEL_STATE_ACTIVATED]).2.1.next_config.states_length = 4 ∧
    (sl_toplevel_states_fold testContext
      [XDG_TOPLEVEL_STATE_FULLSCREEN, XDG_TOPLEVEL_STATE_MAXIMIZED,
       XDG_TOPLEVEL_STATE_ACTIVATED]).2.2.2.length = 4 ∧
    ¬ (4 ≤ SL_CONFIG_STATES_CAPACITY) := by
  refine ⟨rfl, rfl, by decide⟩

/-! Phase lemmas about `sl_window_update`. -/

theorem pairing_preserves (ctx : SlContext) (w : SlWindow) (r : Option SlHostSurface) :
    (sl_window_update_pairing ctx w r).2.realized = w.realized ∧
    (sl_window_update_pairing ctx w r).2.xdg_toplevel = w.xdg_toplevel ∧
    (sl_window_update_pairing ctx w r).2.xdg_popup = w.xdg_popup ∧
    (sl_window_update_pairing ctx w r).1.xwayland = ctx.xwayland := by
  unfold sl_window_update_pairing
  split
  · split <;> exact ⟨rfl, rfl, rfl, rfl⟩
  · split <;> exact ⟨rfl, rfl, rfl, rfl⟩

theorem aura_preserves (ctx : SlContext) (w : SlWindow) :
    (sl_window_update_aura ctx w).1.realized = w.realized ∧
    (sl_window_update_aura ctx w).1.xdg_toplevel = w.xdg_toplevel ∧
    (sl_window_update_aura ctx w).1.xdg_popup = w.xdg_popup := by
  unfold sl_window_update_aura
  split <;> exact ⟨rfl, rfl, rfl⟩

theorem role_realized (g2h : Int → Int → Int × Int) (ctx : SlContext) (w : SlWindow)
    (p : Option SlWindow) :
    (sl_window_update_role g2h ctx w p).1.realized = w.realized := by
  unfold sl_window_update_role
  split
  · rfl
  split
  · split <;> rfl
  · rfl

theorem role_handles (g2h : Int → Int → Int × Int) (ctx : SlContext) (w : SlWindow)
    (p : Option SlWindow) :
    ((ctx.xwayland = true ∨ p = none) →
      (sl_window_update_role g2h ctx w p).1.xdg_toplevel = true ∧
      (sl_window_update_role g2h ctx w p).1.xdg_popup = w.xdg_popup) ∧
    (ctx.xwayland = false → p ≠ none →
      (sl_window_update_role g2h ctx w p).1.xdg_popup = true ∧
      (sl_window_update_role g2h ctx w p).1.xdg_toplevel = w.xdg_toplevel) := by
  constructor
  · intro hcase
    have hcond : (ctx.xwayland || p.isNone) = true := by
      rcases hcase with h | h <;> simp [h]
    unfold sl_window_update_role
    rw [if_pos hcond]
    exact ⟨rfl, rfl⟩
  · intro hxw hp
    obtain ⟨q, hq⟩ := Option.ne_none_iff_exists.mp hp
    have hcond : ¬ ((ctx.xwayland || p.isNone) = true) := by
      simp [hxw, ← hq]
    unfold sl_window_update_role
    rw [if_neg hcond]
    by_cases hpop : w.xdg_popup = true
    · rw [if_neg (by simp [hpop])]
      exact ⟨hpop, rfl⟩
    · simp only [Bool.not_eq_true] at hpop
      rw [if_pos (by simp [hpop]), ← hq]
      exact ⟨rfl, rfl⟩

theorem paired_realized (g2h : Int → Int → Int × Int) (ctx : SlContext) (w : SlWindow)
    (hs : SlHostSurface) :
    (sl_window_update_paired g2h ctx w hs).2.1.realized =
      (if hs.contents_width ≠ 0 ∧ hs.contents_height ≠ 0 then true else w.realized) := by
  unfold sl_window_update_paired
  dsimp only
  rw [role_realized, (aura_preserves ctx _).1]

theorem window_update_realized (g2h : Int → Int → Int × Int) (ctx : SlContext) (w : SlWindow) :
    (sl_window_update g2h ctx w).2.1.realized =
      (match sl_host_resource ctx w with
       | none => false
       | some hs =>
         if hs.contents_width ≠ 0 ∧ hs.contents_height ≠ 0 then true else w.realized) := by
  unfold sl_window_update
  dsimp only
  cases hr : sl_host_resource ctx w with
  | none => rfl
  | some hs =>
    rw [paired_realized, (pairing_preserves ctx w (some hs)).1]

/-- C4 (amended): `realized` goes 0 to 1 in `sl_window_update` only when
the resolved host surface reports nonzero contents in both dimensions; but
it is not sticky: it resets to 0 exactly when the window loses its host
resource (the unpaired-teardown branch). -/
theorem C4_realized (g2h : Int → Int → Int × Int) (ctx : SlContext) (w : SlWindow) :
    (w.realized = false → (sl_window_update g2h ctx w).2.1.realized = true →
      ∃ hs, sl_host_resource ctx w = some hs ∧
        hs.contents_width ≠ 0 ∧ hs.contents_height ≠ 0) ∧
    (w.realized = true → (sl_window_update g2h ctx w).2.1.realized = false →
      sl_host_resource ctx w = none) := by
  have hchar := window_update_realized g2h ctx w
  constructor
  · intro h0 h1
    rw [hchar] at h1
    cases hr : sl_host_resource ctx w with
    | none =>
      rw [hr] at h1
      exact absurd h1 (by simp)
    | some hs =>
      rw [hr] at h1
      dsimp only at h1
      refine ⟨hs, rfl, ?_⟩
      by_cases hc : hs.contents_width ≠ 0 ∧ hs.contents_height ≠ 0
      · exact hc
      · rw [if_neg hc, h0] at h1
        exact absurd h1 (by simp)
  · intro h0 h1
    rw [hchar] at h1
    cases hr : sl_host_resource ctx w with
    | none => rfl
    | some hs =>
      rw [hr] at h1
      dsimp only at h1
      by_cases hc : hs.contents_width ≠ 0 ∧ hs.contents_height ≠ 0
      · rw [if_pos hc] at h1
        exact absurd h1 (by simp)
      · rw [if_neg hc, h0] at h1
        exact absurd h1 (by simp)

/-- C4 counterexample: a realized window whose host surface id was cleared
loses `realized` in the very next reconciliation — the flag is not sticky
across unpairing. -/
theorem C4_counterexample :
    c4Window.realized = true ∧
    (sl_window_update idTransform testContext c4Window).2.1.realized = false := by
  exact ⟨rfl, by decide⟩

/-- C4 witness: the 0-to-1 transition on a concrete window paired with a
surface reporting 104 x 104 contents. -/
theorem C4_witness :
    (testWindow.realized = false ∧
      (sl_window_update idTransform testContext testWindow).2.1.realized = true) ∧
    (∃ hs, sl_host_resource testContext testWindow = some hs ∧
      hs.contents_width ≠ 0 ∧ hs.contents_height ≠ 0) :=
  ⟨⟨rfl, by decide⟩,
   (C4_realized idTransform testContext testWindow).1 rfl (by decide)⟩

theorem paired_role (g2h : Int → Int → Int × Int) (ctx : SlContext) (w : SlWindow)
    (hs : SlHostSurface) :
    ((ctx.xwayland = true ∨ sl_resolved_parent ctx w = none) →
      (sl_window_update_paired g2h ctx w hs).2.1.xdg_toplevel = true ∧
      (sl_window_update_paired g2h ctx w hs).2.1.xdg_popup = w.xdg_popup) ∧
    (ctx.xwayland = false → sl_resolved_parent ctx w ≠ none →
      (sl_window_update_paired g2h ctx w hs).2.1.xdg_popup = true ∧
      (sl_window_update_paired g2h ctx w hs).2.1.xdg_toplevel = w.xdg_toplevel) := by
  constructor
  · intro hcase
    exact ⟨((role_handles g2h ctx _ _).1 hcase).1,
      ((role_handles g2h ctx _ _).1 hcase).2.trans ((aura_preserves ctx _).2.2)⟩
  · intro hxw hp
    exact ⟨((role_handles g2h ctx _ _).2 hxw hp).1,
      ((role_handles g2h ctx _ _).2 hxw hp).2.trans ((aura_preserves ctx _).2.1)⟩

/-- C5 (amended): role assignment in `sl_window_update` is keyed on the
process-wide xwayland flag, not the window's managed flag: when the
context is xwayland, or no parent was resolved, the window gets (or keeps)
a top-level role and its popup handle is untouched; when the context is
not xwayland and a parent was resolved — regardless of the managed flag —
the window gets a popup role and its top-level handle is untouched. -/
theorem C5_role (g2h : Int → Int → Int × Int) (ctx : SlContext) (w : SlWindow)
    (hs : SlHostSurface) (h : sl_host_resource ctx w = some hs) :
    ((ctx.xwayland = true ∨
        sl_resolved_parent (sl_window_update_pairing ctx w (some hs)).1
          (sl_window_update_pairing ctx w (some hs)).2 = none) →
      (sl_window_update g2h ctx w).2.1.xdg_toplevel = true ∧
      (sl_window_update g2h ctx w).2.1.xdg_popup = w.xdg_popup) ∧
    (ctx.xwayland = false →
      sl_resolved_parent (sl_window_update_pairing ctx w (some hs)).1
        (sl_window_update_pairing ctx w (some hs)).2 ≠ none →
      (sl_window_update g2h ctx w).2.1.xdg_popup = true ∧
      (sl_window_update g2h ctx w).2.1.xdg_toplevel = w.xdg_toplevel) := by
  have hpair := pairing_preserves ctx w (some hs)
  have hrole := paired_role g2h (sl_window_update_pairing ctx w (some hs)).1
    (sl_window_update_pairing ctx w (some hs)).2 hs
  unfold sl_window_update
  dsimp only
  rw [h]
  dsimp only
  constructor
  · intro hcase
    have hcase2 : (sl_window_update_pairing ctx w (some hs)).1.xwayland = true ∨
        sl_resolved_parent (sl_window_update_pairing ctx w (some hs)).1
          (sl_window_update_pairing ctx w (some hs)).2 = none := by
      rcases hcase with h1 | h1
      · exact Or.inl (hpair.2.2.2.trans h1)
      · exact Or.inr h1
    have hc := hrole.1 hcase2
    exact ⟨hc.1, hc.2.trans hpair.2.2.1⟩
  · intro hxw hp
    have hc := hrole.2 (hpair.2.2.2.trans hxw) hp
    exact ⟨hc.1, hc.2.trans hpair.2.1⟩

/-- C5 counterexample: an unmanaged window in a non-xwayland context with a
realized sibling receives a popup role (and no top-level role), refuting
the claim that every unmanaged window gets a top-level role. -/
theorem C5_counterexample :
    c5Window.managed = false ∧
    (sl_window_update idTransform c5Context c5Window).2.1.xdg_popup = true ∧
    (sl_window_update idTransform c5Context c5Window).2.1.xdg_toplevel = false := by
  exact ⟨rfl, by decide, by decide⟩

/-- C5 witness: a parentless window in the test context gets the top-level
role. -/
theorem C5_witness :
    sl_host_resource testContext testWindow = some testSurface ∧
    (sl_window_update idTransform testContext testWindow).2.1.xdg_toplevel = true :=
  ⟨by decide,
   ((C5_role idTransform testContext testWindow testSurface (by decide)).1
     (Or.inr (by decide))).1⟩

end Sommelier
